import Mathlib

/-!
Verification of the raster grid unification module
(`eis_toolkit/raster_processing/unifying.py`).

The module is shallowly embedded: coordinates and pixel values are modelled
by rationals (exact real arithmetic), numpy arrays by a shape descriptor plus
a total indexing function, and the two external rasterio capabilities
(`warp.calculate_default_transform` and `warp.reproject`) by function
parameters over which the theorems quantify.
-/

namespace EisUnify

/-- Numpy element types; `np.empty` with no dtype argument allocates
`float64`. -/
inductive Dtype
  | uint8
  | int16
  | int32
  | float32
  | float64
  deriving DecidableEq, Repr

/-- A six-coefficient affine transform, in rasterio's coefficient order:
`a` pixel size x, `b` shear, `c` origin x, `d` shear, `e` pixel size y
(negative in north-up grids), `f` origin y. -/
structure Affine where
  a : ℚ
  b : ℚ
  c : ℚ
  d : ℚ
  e : ℚ
  f : ℚ
  deriving DecidableEq, Repr

/-- The fields of a rasterio `meta` dict that the module reads or writes. -/
structure RasterMeta where
  crs : Nat
  width : Nat
  height : Nat
  transform : Affine
  count : Nat
  nodata : ℚ
  dtype : Dtype
  deriving DecidableEq, Repr

/-- A numpy array: band-major shape plus contents.  Out-of-range indices are
irrelevant to every statement below. -/
structure NpArray where
  bands : Nat
  rows : Nat
  cols : Nat
  dtype : Dtype
  data : Nat → Nat → Nat → ℚ

/-- World-coordinate bounds of a raster (`raster.bounds`). -/
structure Bounds where
  left : ℚ
  bottom : ℚ
  right : ℚ
  top : ℚ
  deriving DecidableEq, Repr

/-- Model of `rasterio.io.DatasetReader`: the attributes the module uses. -/
structure DatasetReader where
  crs : Nat
  width : Nat
  height : Nat
  transform : Affine
  count : Nat
  nodata : ℚ
  dtype : Dtype
  pix : Nat → Nat → Nat → ℚ
  bounds : Bounds

/-- `raster.meta` (one `.copy()` of it: a fresh dict value). -/
def DatasetReader.meta (r : DatasetReader) : RasterMeta :=
  { crs := r.crs, width := r.width, height := r.height,
    transform := r.transform, count := r.count,
    nodata := r.nodata, dtype := r.dtype }

/-- `raster.read()`: the full band-major pixel array in the raster's native
dtype. -/
def DatasetReader.read (r : DatasetReader) : NpArray :=
  { bands := r.count, rows := r.height, cols := r.width,
    dtype := r.dtype, data := r.pix }

/-- `rasterio.enums.Resampling` (the values the docstring names; an opaque
token passed through). -/
inductive Resampling
  | nearest
  | bilinear
  | cubic
  deriving DecidableEq, Repr

/-- The geodesy capability `warp.calculate_default_transform`:
`(src_crs, dst_crs, width, height, bounds, resolution) ↦
 (transform, width, height)`. -/
def CalcDT : Type :=
  Nat → Nat → Nat → Nat → Bounds → ℚ × ℚ → Affine × Nat × Nat

/-- The argument record of one `warp.reproject` call, field for field. -/
structure ReprojectArgs where
  source : NpArray
  srcCrs : Nat
  srcTransform : Affine
  srcNodata : ℚ
  destination : NpArray
  dstCrs : Nat
  dstTransform : Affine
  dstNodata : ℚ
  resampling : Resampling

/-- The opaque behaviour of the external reprojection capability on one call:
which destination cells receive a resampled source pixel (coverage), and
which value each such cell receives. -/
def ReprojectBehavior : Type :=
  ReprojectArgs → (Nat → Nat → Nat → Bool) × (Nat → Nat → Nat → ℚ)

/-- `warp.reproject` writes resampled values into the destination numpy array
in place — covered cells get interpolated source values, every other cell
keeps the destination's prior contents — and returns that same array
(`[0]` of the returned pair).  Shape and dtype are the destination's. -/
def runReproject (R : ReprojectBehavior) (args : ReprojectArgs) : NpArray :=
  { args.destination with
    data := fun b i j =>
      if (R args).1 b i j then (R args).2 b i j
      else args.destination.data b i j }

/-- Python's float `%`: `x % r = x - r * ⌊x / r⌋` (result has the divisor's
sign; for `r > 0` it lies in `[0, r)`, also for negative `x`). -/
def pymod (x r : ℚ) : ℚ := x - r * ⌊x / r⌋

/-- The corner-snapping step of `_unify_raster_grids` (one axis): distance to
the grid is `c % r`; snap up when it exceeds `r / 2`, down otherwise. -/
def snapCoord (c r : ℚ) : ℚ :=
  if pymod c r > r / 2 then c - pymod c r + r else c - pymod c r

/-- `dst_resolution = (base_raster.transform.a, abs(base_raster.transform.e))`
(line 22; note: no `abs` on the first component). -/
def dstResolution (base : DatasetReader) : ℚ × ℚ :=
  (base.transform.a, |base.transform.e|)

/-- Lines 32-62 of `_unify_raster_grids`: in unclipped mode, obtain the raw
destination transform / width / height from the geodesy capability and snap
the transform's translation coefficients `c` and `f` to the grid, keeping
`a`, `b`, `d`, `e`. -/
def computeTargetGrid (calcDT : CalcDT) (dstCrs : Nat) (dstRes : ℚ × ℚ)
    (raster : DatasetReader) : Affine × Nat × Nat :=
  let raw := calcDT raster.crs dstCrs raster.width raster.height raster.bounds dstRes
  let rawT := raw.1
  (⟨rawT.a, rawT.b, snapCoord rawT.c dstRes.1,
    rawT.d, rawT.e, snapCoord rawT.f dstRes.2⟩,
   raw.2.1, raw.2.2)

/-- The loop-carried mutable state of `_unify_raster_grids`:
`dst_transform`, `dst_width`, `dst_height`, and the contents of the single
shared `out_meta` dict (created once at line 24 and mutated in place at
lines 60-62). -/
structure LoopState where
  dstTransform : Affine
  dstWidth : Nat
  dstHeight : Nat
  outMeta : RasterMeta

/-- One iteration of the `for raster in rasters_to_unify` loop
(lines 27-82).  Returns the updated loop state, the argument record passed to
`warp.reproject`, and the array appended to the results (`out_image`). -/
def processRaster (base : DatasetReader) (calcDT : CalcDT)
    (R : ReprojectBehavior) (resamplingMethod : Resampling)
    (sameExtent : Bool) (dstCrs : Nat) (dstRes : ℚ × ℚ)
    (st : LoopState) (raster : DatasetReader) :
    LoopState × ReprojectArgs × NpArray :=
  let st1 : LoopState :=
    if sameExtent then st
    else
      let g := computeTargetGrid calcDT dstCrs dstRes raster
      { dstTransform := g.1, dstWidth := g.2.1, dstHeight := g.2.2,
        outMeta := { st.outMeta with
          transform := g.1, width := g.2.1, height := g.2.2 } }
  let dstArray : NpArray :=
    { bands := base.count, rows := st1.dstHeight, cols := st1.dstWidth,
      dtype := Dtype.float64, data := fun _ _ _ => base.nodata }
  let args : ReprojectArgs :=
    { source := raster.read, srcCrs := raster.crs,
      srcTransform := raster.transform, srcNodata := base.nodata,
      destination := dstArray, dstCrs := dstCrs,
      dstTransform := st1.dstTransform, dstNodata := base.nodata,
      resampling := resamplingMethod }
  (st1, args, runReproject R args)

/-- The whole loop, threading the state and collecting, per raster, the
`warp.reproject` call made and the appended `out_image`. -/
def unifyLoop (base : DatasetReader) (calcDT : CalcDT)
    (R : ReprojectBehavior) (rm : Resampling) (sameExtent : Bool)
    (dstCrs : Nat) (dstRes : ℚ × ℚ) :
    LoopState → List DatasetReader →
    LoopState × List (ReprojectArgs × NpArray)
  | st, [] => (st, [])
  | st, r :: rs =>
    let step := processRaster base calcDT R rm sameExtent dstCrs dstRes st r
    let rest := unifyLoop base calcDT R rm sameExtent dstCrs dstRes step.1 rs
    (rest.1, (step.2.1, step.2.2) :: rest.2)

/-- Initial loop state (lines 18-24): base grid, plus
`out_meta = base_raster.meta.copy()`. -/
def initState (base : DatasetReader) : LoopState :=
  { dstTransform := base.transform, dstWidth := base.width,
    dstHeight := base.height, outMeta := base.meta }

/-- Shallow embedding of `_unify_raster_grids`.

Python reference semantics of the one shared dict: `out_meta` is a single
dict object created once before the loop (line 24) and appended **by
reference** each iteration (line 82), while the base entry holds a distinct
copy (line 23).  A caller reading any non-base entry's metadata after the
call therefore sees the dict's final state, which is what the returned list
records here: every non-base entry carries the final value of `out_meta`. -/
def unify_raster_grids_impl (base : DatasetReader)
    (rastersToUnify : List DatasetReader) (rm : Resampling)
    (sameExtent : Bool) (calcDT : CalcDT) (R : ReprojectBehavior) :
    List (NpArray × RasterMeta) :=
  let res := unifyLoop base calcDT R rm sameExtent base.crs
    (dstResolution base) (initState base) rastersToUnify
  (base.read, base.meta) :: res.2.map (fun p => (p.2, res.1.outMeta))

/-- The sequence of `warp.reproject` argument records made by one call, in
loop order. -/
def unifyReprojectCalls (base : DatasetReader)
    (rastersToUnify : List DatasetReader) (rm : Resampling)
    (sameExtent : Bool) (calcDT : CalcDT) (R : ReprojectBehavior) :
    List ReprojectArgs :=
  (unifyLoop base calcDT R rm sameExtent base.crs (dstResolution base)
    (initState base) rastersToUnify).2.map Prod.fst

/-- A Python value passed where a `rasterio.io.DatasetReader` is expected:
either an actual reader or some other object. -/
inductive PyObject
  | dataset (r : DatasetReader)
  | other

/-- `isinstance(x, rasterio.io.DatasetReader)`. -/
def PyObject.isDataset : PyObject → Bool
  | .dataset _ => true
  | .other => false

def PyObject.asDataset : PyObject → Option DatasetReader
  | .dataset r => some r
  | .other => none

/-- The `raster_list` argument: either a Python list or some non-list
value. -/
inductive PyArg
  | list (xs : List PyObject)
  | nonList

/-- `eis_toolkit.exceptions`. -/
inductive EisException
  | invalidParameterValue
  deriving DecidableEq, Repr

/-- Shallow embedding of the public `unify_raster_grids`: the four
validation checks in source order (lines 111-118), then the call to
`_unify_raster_grids`. -/
def unify_raster_grids (baseRaster : PyObject) (rasterList : PyArg)
    (rm : Resampling) (sameExtent : Bool) (calcDT : CalcDT)
    (R : ReprojectBehavior) :
    Except EisException (List (NpArray × RasterMeta)) :=
  match baseRaster with
  | .other => .error .invalidParameterValue
  | .dataset base =>
    match rasterList with
    | .nonList => .error .invalidParameterValue
    | .list xs =>
      if (xs.all PyObject.isDataset) = false then
        .error .invalidParameterValue
      else if xs.length = 0 then
        .error .invalidParameterValue
      else
        .ok (unify_raster_grids_impl base (xs.filterMap PyObject.asDataset)
          rm sameExtent calcDT R)

/-- The disjunction of the four validation checks of `unify_raster_grids`
(lines 111-118): base not a `DatasetReader`, `raster_list` not a list, an
element of `raster_list` not a `DatasetReader`, or `raster_list` empty. -/
def invalidUnifyArgs (baseRaster : PyObject) (rasterList : PyArg) : Bool :=
  !baseRaster.isDataset ||
  (match rasterList with
   | .nonList => true
   | .list xs => !xs.all PyObject.isDataset || xs.length == 0)

/-! ### Concrete instances used by counterexamples and witnesses -/

/-- A constant pixel function. -/
def exPix : Nat → Nat → Nat → ℚ := fun _ _ _ => 0

/-- A 10×10 base raster with unit pixels, origin (0, 10), one band, nodata
−9999, native dtype float32. -/
def exBase : DatasetReader :=
  { crs := 0, width := 10, height := 10,
    transform := ⟨1, 0, 0, 0, -1, 10⟩, count := 1, nodata := -9999,
    dtype := Dtype.float32, pix := exPix, bounds := ⟨0, 0, 10, 10⟩ }

/-- A 5×5 raster in another CRS with its own nodata value 0. -/
def exR1 : DatasetReader :=
  { crs := 1, width := 5, height := 5,
    transform := ⟨1, 0, 100, 0, -1, 50⟩, count := 1, nodata := 0,
    dtype := Dtype.uint8, pix := exPix, bounds := ⟨100, 45, 105, 50⟩ }

/-- A 7×3 raster in a third CRS. -/
def exR2 : DatasetReader :=
  { exR1 with crs := 2, width := 7, height := 3 }

/-- A geodesy capability that reports the source pixel dimensions as the
destination size, with a fixed raw transform. -/
def exCalcDT : CalcDT :=
  fun _ _ w h _ _ => (⟨1, 0, 0, 0, -1, 0⟩, w, h)

/-- A geodesy capability whose raw transform has origin x = 3/10. -/
def exCalcDTfrac : CalcDT :=
  fun _ _ w h _ _ => (⟨1, 0, 3/10, 0, -1, 0⟩, w, h)

/-- A reprojection behaviour that covers no destination cell. -/
def exRB : ReprojectBehavior :=
  fun _ => (fun _ _ _ => false, fun _ _ _ => 0)

/-- The base raster with grid origin x = 1/2, not a multiple of its
resolution 1. -/
def exBaseHalf : DatasetReader :=
  { exBase with transform := ⟨1, 0, 1/2, 0, -1, 10⟩ }

/-- The base raster with a negative x pixel-size coefficient. -/
def exBaseNegA : DatasetReader :=
  { exBase with transform := ⟨-1, 0, 0, 0, -1, 10⟩ }

/-! ### Arithmetic of the snapping step -/

lemma pymod_nonneg (x : ℚ) {r : ℚ} (hr : 0 < r) : 0 ≤ pymod x r := by
  have hr' : r ≠ 0 := ne_of_gt hr
  have h : (⌊x / r⌋ : ℚ) ≤ x / r := Int.floor_le (x / r)
  have h2 : r * (⌊x / r⌋ : ℚ) ≤ r * (x / r) :=
    mul_le_mul_of_nonneg_left h (le_of_lt hr)
  have hx : r * (x / r) = x := by field_simp
  unfold pymod
  linarith

lemma pymod_lt (x : ℚ) {r : ℚ} (hr : 0 < r) : pymod x r < r := by
  have hr' : r ≠ 0 := ne_of_gt hr
  have h : x / r < (⌊x / r⌋ : ℚ) + 1 := Int.lt_floor_add_one (x / r)
  have h2 : r * (x / r) < r * ((⌊x / r⌋ : ℚ) + 1) :=
    mul_lt_mul_of_pos_left h hr
  have hx : r * (x / r) = x := by field_simp
  unfold pymod
  linarith

lemma pymod_int_mul {r : ℚ} (hr : r ≠ 0) (n : ℤ) : pymod (r * n) r = 0 := by
  unfold pymod
  rw [mul_div_cancel_left₀ _ hr, Int.floor_intCast]
  ring

/-- The snapped coordinate is an integer multiple of the resolution. -/
lemma snapCoord_eq_int_mul (c r : ℚ) :
    ∃ n : ℤ, snapCoord c r = r * n := by
  unfold snapCoord pymod
  split
  · exact ⟨⌊c / r⌋ + 1, by push_cast; ring⟩
  · exact ⟨⌊c / r⌋, by ring⟩

/-! ### Claim C2 — snapping correctness -/

/-- C2, counterexample.  With the base grid origin at x = 1/2 (resolution 1)
and a raw destination origin of 3/10, the snapped result-grid origin is
within half a pixel of the raw origin — so the snap behaves as described —
yet it is NOT congruent to the base grid's origin modulo the resolution:
the code snaps to integer multiples of the resolution measured from
coordinate zero, not from the base grid's origin. -/
theorem snap_not_base_origin_aligned :
    |(computeTargetGrid exCalcDTfrac exBaseHalf.crs (dstResolution exBaseHalf)
        exR1).1.c - 3/10| ≤ 1 / 2 ∧
    pymod ((computeTargetGrid exCalcDTfrac exBaseHalf.crs
        (dstResolution exBaseHalf) exR1).1.c - exBaseHalf.transform.c) 1 ≠ 0 := by
  norm_num [computeTargetGrid, exCalcDTfrac, exBaseHalf, exBase, exR1,
    dstResolution, snapCoord, pymod, abs_le]

/-- C2, amended.  For every raw corner coordinate `c` and resolution
`r > 0`, the snapped coordinate `c' = snapCoord c r` satisfies
`|c' − c| ≤ r/2` and `c' mod r = 0` — i.e. `c'` is an integer multiple of
`r` measured from coordinate zero — and consequently `(c' − origin) mod r
= 0` holds for a base-grid origin `origin` exactly when that origin is
itself a multiple of `r` (`pymod origin r = 0`); it does not hold for an
arbitrary base origin.  Valid for positive and negative `c`. -/
theorem snapCoord_correct (c r origin : ℚ) (hr : 0 < r)
    (ho : pymod origin r = 0) :
    |snapCoord c r - c| ≤ r / 2 ∧ pymod (snapCoord c r) r = 0 ∧
    pymod (snapCoord c r - origin) r = 0 := by
  have hr' : r ≠ 0 := ne_of_gt hr
  have hnn := pymod_nonneg c hr
  have hlt := pymod_lt c hr
  obtain ⟨n, hn⟩ := snapCoord_eq_int_mul c r
  have ho' : origin = r * ⌊origin / r⌋ := by
    unfold pymod at ho
    linarith
  refine ⟨?_, ?_, ?_⟩
  · unfold snapCoord
    split
    · rename_i h
      rw [abs_le]
      constructor <;> linarith
    · rename_i h
      push_neg at h
      rw [abs_le]
      constructor <;> linarith
  · rw [hn]
    exact pymod_int_mul hr' n
  · rw [hn, ho']
    have h := pymod_int_mul hr' (n - ⌊origin / r⌋)
    have hcast : r * ((n : ℚ) - (⌊origin / r⌋ : ℚ)) = r * ((n - ⌊origin / r⌋ : ℤ) : ℚ) := by
      push_cast
      ring
    calc pymod (r * n - r * ⌊origin / r⌋) r
        = pymod (r * ((n - ⌊origin / r⌋ : ℤ) : ℚ)) r := by
          rw [← hcast]
          ring_nf
      _ = 0 := h

/-- Witness for C2's amended theorem at `c = −7/3`, `r = 2`,
`origin = −4`. -/
theorem snapCoord_correct_witness :
    ((0 : ℚ) < 2 ∧ pymod (-4) 2 = 0) ∧
    (|snapCoord (-7/3) 2 - (-7/3)| ≤ 2 / 2 ∧ pymod (snapCoord (-7/3) 2) 2 = 0 ∧
      pymod (snapCoord (-7/3) 2 - (-4)) 2 = 0) :=
  ⟨⟨by norm_num, by norm_num [pymod]⟩,
   snapCoord_correct (-7/3) 2 (-4) (by norm_num) (by norm_num [pymod])⟩

/-! ### Claim C7 — only the translation coefficients are replaced -/

/-- C7.  In unclipped mode (`sameExtent = false`), for every raster and
every loop state, the grid installed by one loop iteration keeps the raw
transform's pixel-size and shear coefficients `a`, `b`, `d`, `e` exactly as
obtained from the geodesy capability, replaces only the translation
coefficients `c` and `f` with their snapped values, and returns the raw
width and height unchanged. -/
theorem processRaster_frame (base : DatasetReader) (calcDT : CalcDT)
    (R : ReprojectBehavior) (rm : Resampling) (dstCrs : Nat)
    (dstRes : ℚ × ℚ) (st : LoopState) (raster : DatasetReader) :
    ((processRaster base calcDT R rm false dstCrs dstRes st raster).1.dstTransform.a =
      (calcDT raster.crs dstCrs raster.width raster.height raster.bounds dstRes).1.a) ∧
    ((processRaster base calcDT R rm false dstCrs dstRes st raster).1.dstTransform.b =
      (calcDT raster.crs dstCrs raster.width raster.height raster.bounds dstRes).1.b) ∧
    ((processRaster base calcDT R rm false dstCrs dstRes st raster).1.dstTransform.d =
      (calcDT raster.crs dstCrs raster.width raster.height raster.bounds dstRes).1.d) ∧
    ((processRaster base calcDT R rm false dstCrs dstRes st raster).1.dstTransform.e =
      (calcDT raster.crs dstCrs raster.width raster.height raster.bounds dstRes).1.e) ∧
    ((processRaster base calcDT R rm false dstCrs dstRes st raster).1.dstTransform.c =
      snapCoord (calcDT raster.crs dstCrs raster.width raster.height raster.bounds dstRes).1.c dstRes.1) ∧
    ((processRaster base calcDT R rm false dstCrs dstRes st raster).1.dstTransform.f =
      snapCoord (calcDT raster.crs dstCrs raster.width raster.height raster.bounds dstRes).1.f dstRes.2) ∧
    ((processRaster base calcDT R rm false dstCrs dstRes st raster).1.dstWidth =
      (calcDT raster.crs dstCrs raster.width raster.height raster.bounds dstRes).2.1) ∧
    ((processRaster base calcDT R rm false dstCrs dstRes st raster).1.dstHeight =
      (calcDT raster.crs dstCrs raster.width raster.height raster.bounds dstRes).2.2) := by
  refine ⟨rfl, rfl, rfl, rfl, rfl, rfl, rfl, rfl⟩

/-! ### Claim C8 — the target resolution -/

/-- C8, counterexample.  For a base raster whose transform has
`a = −1`, the code's `dst_resolution` first component is `−1` — it is not
`|a|` and is not strictly positive, because the code applies `abs` only to
`e`, not to `a`. -/
theorem dstResolution_neg_a :
    (dstResolution exBaseNegA).1 = -1 ∧
    ¬ (0 < (dstResolution exBaseNegA).1) ∧
    (dstResolution exBaseNegA).1 ≠ |exBaseNegA.transform.a| := by
  refine ⟨rfl, by decide, by decide⟩

/-- C8, amended.  The target resolution equals
`(transform.a, |transform.e|)`; whenever `transform.a > 0` (the
conventional raster orientation) and `transform.e ≠ 0`, it equals
`(|transform.a|, |transform.e|)` and both components are strictly
positive. -/
theorem dstResolution_spec (base : DatasetReader)
    (ha : 0 < base.transform.a) (he : base.transform.e ≠ 0) :
    dstResolution base = (|base.transform.a|, |base.transform.e|) ∧
    0 < (dstResolution base).1 ∧ 0 < (dstResolution base).2 := by
  unfold dstResolution
  refine ⟨?_, ha, abs_pos.mpr he⟩
  rw [abs_of_pos ha]

/-- Witness for C8's amended theorem at the concrete base raster. -/
theorem dstResolution_spec_witness :
    ((0 : ℚ) < exBase.transform.a ∧ exBase.transform.e ≠ 0) ∧
    (dstResolution exBase = (|exBase.transform.a|, |exBase.transform.e|) ∧
      0 < (dstResolution exBase).1 ∧ 0 < (dstResolution exBase).2) :=
  ⟨⟨by norm_num [exBase], by norm_num [exBase]⟩,
   dstResolution_spec exBase (by norm_num [exBase]) (by norm_num [exBase])⟩

/-! ### Structural lemmas about the loop -/

section LoopLemmas

variable (base : DatasetReader) (calcDT : CalcDT) (R : ReprojectBehavior)
  (rm : Resampling) (se : Bool) (dstCrs : Nat) (dstRes : ℚ × ℚ)

lemma unifyLoop_length : ∀ (rs : List DatasetReader) (st : LoopState),
    (unifyLoop base calcDT R rm se dstCrs dstRes st rs).2.length = rs.length
  | [], _ => rfl
  | _ :: rs, st => by
    simp only [unifyLoop, List.length_cons]
    rw [unifyLoop_length rs]

/-- Each collected pair's second component is the reprojection of its first
component. -/
lemma unifyLoop_out_eq : ∀ (rs : List DatasetReader) (st : LoopState) (i : Nat),
    ((unifyLoop base calcDT R rm se dstCrs dstRes st rs).2.get? i).map
      (fun p => p.2) =
    ((unifyLoop base calcDT R rm se dstCrs dstRes st rs).2.get? i).map
      (fun p => runReproject R p.1)
  | [], _, _ => rfl
  | _ :: _, _, 0 => rfl
  | _ :: rs, st, i + 1 => unifyLoop_out_eq rs _ i

/-- The reproject-call arguments that do not depend on the loop state, per
call, in input order. -/
lemma unifyLoop_args_spec : ∀ (rs : List DatasetReader) (st : LoopState) (i : Nat),
    ((unifyLoop base calcDT R rm se dstCrs dstRes st rs).2.get? i).map
      (fun p => (p.1.srcCrs, p.1.srcTransform, p.1.srcNodata, p.1.dstCrs,
        p.1.dstNodata, p.1.resampling)) =
    (rs.get? i).map
      (fun r => (r.crs, r.transform, base.nodata, dstCrs, base.nodata, rm))
  | [], _, _ => rfl
  | _ :: _, _, 0 => rfl
  | _ :: rs, st, i + 1 => unifyLoop_args_spec rs _ i

/-- Each call's source array is the corresponding raster's `read()`. -/
lemma unifyLoop_source_spec : ∀ (rs : List DatasetReader) (st : LoopState) (i : Nat),
    ((unifyLoop base calcDT R rm se dstCrs dstRes st rs).2.get? i).map
      (fun p => p.1.source) =
    (rs.get? i).map DatasetReader.read
  | [], _, _ => rfl
  | _ :: _, _, 0 => rfl
  | _ :: rs, st, i + 1 => unifyLoop_source_spec rs _ i

/-- Each collected array's dtype is numpy's default float64. -/
lemma unifyLoop_dtype : ∀ (rs : List DatasetReader) (st : LoopState) (i : Nat),
    ((unifyLoop base calcDT R rm se dstCrs dstRes st rs).2.get? i).map
      (fun p => p.2.dtype) =
    (rs.get? i).map (fun _ => Dtype.float64)
  | [], _, _ => rfl
  | _ :: _, _, 0 => rfl
  | _ :: rs, st, i + 1 => unifyLoop_dtype rs _ i

/-- A destination cell the external capability does not cover keeps the
nodata fill. -/
lemma unifyLoop_uncovered :
    ∀ (rs : List DatasetReader) (st : LoopState) (i b row col : Nat),
    ((unifyLoop base calcDT R rm se dstCrs dstRes st rs).2.get? i).map
      (fun p => (R p.1).1 b row col) = some false →
    ((unifyLoop base calcDT R rm se dstCrs dstRes st rs).2.get? i).map
      (fun p => p.2.data b row col) = some base.nodata
  | [], _, _, _, _, _ => fun h => Option.noConfusion h
  | r :: rs, st, 0, b, row, col => fun h => by
    simp only [unifyLoop, List.get?_cons_zero, Option.map_some',
      Option.some_inj] at h ⊢
    show (runReproject R
      (processRaster base calcDT R rm se dstCrs dstRes st r).2.1).data
        b row col = base.nodata
    simp only [runReproject, h, Bool.false_eq_true, if_false]
    rfl
  | _ :: rs, st, i + 1, b, row, col => unifyLoop_uncovered rs _ i b row col

/-- With `sameExtent = true` the loop never touches its state. -/
lemma unifyLoop_true_state : ∀ (rs : List DatasetReader) (st : LoopState),
    (unifyLoop base calcDT R rm true dstCrs dstRes st rs).1 = st
  | [], _ => rfl
  | _ :: rs, st => unifyLoop_true_state rs st

/-- With `sameExtent = true` every collected array has the base shape held
in the (invariant) loop state. -/
lemma unifyLoop_true_shape : ∀ (rs : List DatasetReader) (st : LoopState) (i : Nat),
    ((unifyLoop base calcDT R rm true dstCrs dstRes st rs).2.get? i).map
      (fun p => (p.2.bands, p.2.rows, p.2.cols)) =
    (rs.get? i).map (fun _ => (base.count, st.dstHeight, st.dstWidth))
  | [], _, _ => rfl
  | _ :: _, _, 0 => rfl
  | _ :: rs, st, i + 1 => unifyLoop_true_shape rs _ i

end LoopLemmas

/-! ### Claim C9 — result structure and order -/

/-- C9.  Every call returns `1 + |others|` results; the first result is
exactly `(base.read(), base's own descriptor)`, for every geodesy and
reprojection behaviour and both extent modes; the `i`-th reproject call's
source array is the `i`-th input raster's `read()` (input order), and the
`(i+1)`-th result array is the reprojection output of the `i`-th call. -/
theorem unify_result_structure (base : DatasetReader)
    (rasters : List DatasetReader) (rm : Resampling) (se : Bool)
    (calcDT : CalcDT) (R : ReprojectBehavior) :
    (unify_raster_grids_impl base rasters rm se calcDT R).length =
      1 + rasters.length ∧
    (unify_raster_grids_impl base rasters rm se calcDT R).get? 0 =
      some (base.read, base.meta) ∧
    (∀ i : Nat,
      ((unifyReprojectCalls base rasters rm se calcDT R).get? i).map
        (fun a => a.source) = (rasters.get? i).map DatasetReader.read) ∧
    (∀ i : Nat,
      ((unify_raster_grids_impl base rasters rm se calcDT R).get? (i + 1)).map
        Prod.fst =
      ((unifyReprojectCalls base rasters rm se calcDT R).get? i).map
        (runReproject R)) := by
  refine ⟨?_, rfl, ?_, ?_⟩
  · simp only [unify_raster_grids_impl, List.length_cons, List.length_map]
    rw [unifyLoop_length]
    omega
  · intro i
    simp only [unifyReprojectCalls, List.get?_map, Option.map_map,
      Function.comp]
    exact unifyLoop_source_spec base calcDT R rm se base.crs
      (dstResolution base) rasters (initState base) i
  · intro i
    simp only [unify_raster_grids_impl, unifyReprojectCalls,
      List.get?_cons_succ, List.get?_map, Option.map_map, Function.comp]
    exact unifyLoop_out_eq base calcDT R rm se base.crs
      (dstResolution base) rasters (initState base) i

/-! ### Claim C10 — result dtypes -/

/-- C10.  For every call, the base result keeps the base raster's native
dtype, while every non-base result array has numpy's default float64 dtype
(`np.empty` with no dtype argument), regardless of the base or source
rasters' own dtypes. -/
theorem unify_result_dtypes (base : DatasetReader)
    (rasters : List DatasetReader) (rm : Resampling) (se : Bool)
    (calcDT : CalcDT) (R : ReprojectBehavior) :
    ((unify_raster_grids_impl base rasters rm se calcDT R).get? 0).map
      (fun p => p.1.dtype) = some base.dtype ∧
    ∀ i : Nat,
      ((unify_raster_grids_impl base rasters rm se calcDT R).get? (i + 1)).map
        (fun p => p.1.dtype) =
      (rasters.get? i).map (fun _ => Dtype.float64) := by
  refine ⟨rfl, ?_⟩
  intro i
  simp only [unify_raster_grids_impl, List.get?_cons_succ, List.get?_map,
    Option.map_map, Function.comp]
  exact unifyLoop_dtype base calcDT R rm se base.crs
    (dstResolution base) rasters (initState base) i

/-! ### Claim C3 — arguments of the reprojection call -/

/-- C3, counterexample.  In a concrete call, the source raster's own nodata
value is 0, but the value passed as the source nodata to the reprojection
capability is the base raster's −9999 — the code passes
`base_raster.meta["nodata"]`, not the source raster's nodata. -/
theorem reproject_src_nodata_is_base :
    ((unifyReprojectCalls exBase [exR1] Resampling.nearest true exCalcDT
        exRB).get? 0).map (fun a => a.srcNodata) = some (-9999) ∧
    exR1.nodata = 0 ∧
    ((unifyReprojectCalls exBase [exR1] Resampling.nearest true exCalcDT
        exRB).get? 0).map (fun a => a.srcNodata) ≠ some exR1.nodata := by
  refine ⟨rfl, rfl, by decide⟩

/-- C3, amended.  For every raster `r` in `others`, the reproject call for
`r` passes `r`'s own CRS and transform as the source CRS and source
transform, but the **base** raster's nodata value as the source nodata; the
destination CRS and destination nodata are the base's, and the resampling
method is passed through. -/
theorem unify_reproject_args (base : DatasetReader)
    (rasters : List DatasetReader) (rm : Resampling) (se : Bool)
    (calcDT : CalcDT) (R : ReprojectBehavior) (i : Nat) :
    ((unifyReprojectCalls base rasters rm se calcDT R).get? i).map
      (fun a => (a.srcCrs, a.srcTransform, a.srcNodata, a.dstCrs,
        a.dstNodata, a.resampling)) =
    (rasters.get? i).map
      (fun r => (r.crs, r.transform, base.nodata, base.crs,
        base.nodata, rm)) := by
  simp only [unifyReprojectCalls, List.get?_map, Option.map_map,
    Function.comp]
  exact unifyLoop_args_spec base calcDT R rm se base.crs
    (dstResolution base) rasters (initState base) i

/-! ### Claim C5 — uncovered destination cells stay nodata -/

/-- C5.  For every call, every non-base result, and every destination cell
the external reprojection capability does not cover with a source pixel,
the result value is exactly the base raster's nodata value: the destination
array is allocated filled with nodata before the reprojection writes. -/
theorem unify_uncovered_nodata (base : DatasetReader)
    (rasters : List DatasetReader) (rm : Resampling) (se : Bool)
    (calcDT : CalcDT) (R : ReprojectBehavior) (i b row col : Nat)
    (h : ((unifyReprojectCalls base rasters rm se calcDT R).get? i).map
      (fun a => (R a).1 b row col) = some false) :
    ((unify_raster_grids_impl base rasters rm se calcDT R).get? (i + 1)).map
      (fun p => p.1.data b row col) = some base.nodata := by
  simp only [unifyReprojectCalls, List.get?_map, Option.map_map,
    Function.comp] at h
  simp only [unify_raster_grids_impl, List.get?_cons_succ, List.get?_map,
    Option.map_map, Function.comp]
  exact unifyLoop_uncovered base calcDT R rm se base.crs
    (dstResolution base) rasters (initState base) i b row col h

/-- Witness for C5 at a concrete call whose reprojection behaviour covers
no cell. -/
theorem unify_uncovered_nodata_witness :
    (((unifyReprojectCalls exBase [exR1] Resampling.nearest true exCalcDT
        exRB).get? 0).map (fun a => (exRB a).1 0 0 0) = some false) ∧
    ((unify_raster_grids_impl exBase [exR1] Resampling.nearest true exCalcDT
        exRB).get? 1).map (fun p => p.1.data 0 0 0) = some exBase.nodata :=
  ⟨rfl, unify_uncovered_nodata exBase [exR1] Resampling.nearest true
    exCalcDT exRB 0 0 0 0 rfl⟩

/-! ### Claim C4 — clipped mode reuses the base grid -/

/-- C4.  With `sameExtent = true`, every result's descriptor has the base
descriptor's width, height and transform, and every result array has shape
`(base.bandCount, base.height, base.width)`. -/
theorem unify_sameExtent_base_grid (base : DatasetReader)
    (rasters : List DatasetReader) (rm : Resampling) (calcDT : CalcDT)
    (R : ReprojectBehavior) (i : Nat)
    (h : i < (unify_raster_grids_impl base rasters rm true calcDT R).length) :
    ((unify_raster_grids_impl base rasters rm true calcDT R).get? i).map
      (fun p => (p.2.width, p.2.height, p.2.transform,
        p.1.bands, p.1.rows, p.1.cols)) =
    some (base.width, base.height, base.transform,
      base.count, base.height, base.width) := by
  have hlen : (unify_raster_grids_impl base rasters rm true calcDT R).length =
      1 + rasters.length := by
    simp only [unify_raster_grids_impl, List.length_cons, List.length_map]
    rw [unifyLoop_length]
    omega
  cases i with
  | zero => rfl
  | succ i =>
    have hi : i < rasters.length := by omega
    have hst := unifyLoop_true_state base calcDT R rm base.crs
      (dstResolution base) rasters (initState base)
    have hshape := unifyLoop_true_shape base calcDT R rm base.crs
      (dstResolution base) rasters (initState base) i
    have hloopLen : (unifyLoop base calcDT R rm true base.crs
        (dstResolution base) (initState base) rasters).2.length =
        rasters.length :=
      unifyLoop_length base calcDT R rm true base.crs (dstResolution base)
        rasters (initState base)
    simp only [unify_raster_grids_impl, List.get?_cons_succ, List.get?_map,
      Option.map_map, Function.comp]
    cases hq : (unifyLoop base calcDT R rm true base.crs
        (dstResolution base) (initState base) rasters).2.get? i with
    | none =>
      have := List.get?_eq_none.mp hq
      omega
    | some q =>
      rw [hq] at hshape
      have hr : rasters.get? i = some (rasters.get ⟨i, hi⟩) :=
        List.get?_eq_get hi
      rw [hr, Option.map_some', Option.map_some', Option.some_inj] at hshape
      have hb := congrArg Prod.fst hshape
      have hrw := congrArg (fun t => t.2.1) hshape
      have hcl := congrArg (fun t => t.2.2) hshape
      simp only at hb hrw hcl
      simp only [Option.map_some', Function.comp_apply, hst, hb, hrw, hcl]
      rfl

/-- Witness for C4 at a concrete two-element call (non-base entry). -/
theorem unify_sameExtent_base_grid_witness :
    (1 < (unify_raster_grids_impl exBase [exR1] Resampling.nearest true
      exCalcDT exRB).length) ∧
    ((unify_raster_grids_impl exBase [exR1] Resampling.nearest true exCalcDT
        exRB).get? 1).map
      (fun p => (p.2.width, p.2.height, p.2.transform,
        p.1.bands, p.1.rows, p.1.cols)) =
    some (exBase.width, exBase.height, exBase.transform,
      exBase.count, exBase.height, exBase.width) :=
  ⟨by decide, unify_sameExtent_base_grid exBase [exR1] Resampling.nearest
    exCalcDT exRB 1 (by decide)⟩

/-! ### Claim C6 — validation -/

/-- C6.  Whenever `base` is not a raster handle, `raster_list` is not a
list, some element of `raster_list` is not a raster handle, or
`raster_list` is empty, `unify_raster_grids` returns the
`InvalidParameterValue` failure and nothing else — no partial output
exists, independent of the resampling method, extent mode and external
capabilities. -/
theorem unify_validation (baseRaster : PyObject) (rasterList : PyArg)
    (rm : Resampling) (se : Bool) (calcDT : CalcDT) (R : ReprojectBehavior)
    (h : invalidUnifyArgs baseRaster rasterList = true) :
    unify_raster_grids baseRaster rasterList rm se calcDT R =
      Except.error EisException.invalidParameterValue := by
  cases baseRaster with
  | other => rfl
  | dataset b =>
    cases rasterList with
    | nonList => rfl
    | list xs =>
      simp only [invalidUnifyArgs, PyObject.isDataset, Bool.not_true,
        Bool.false_or, Bool.or_eq_true, Bool.not_eq_true',
        beq_iff_eq] at h
      rcases h with h1 | h2
      · simp [unify_raster_grids, h1]
      · rcases hall : xs.all PyObject.isDataset with _ | _
        · simp [unify_raster_grids, hall]
        · simp [unify_raster_grids, hall, h2]

/-- Witness for C6: an empty raster list with a valid base raster. -/
theorem unify_validation_witness :
    invalidUnifyArgs (PyObject.dataset exBase) (PyArg.list []) = true ∧
    unify_raster_grids (PyObject.dataset exBase) (PyArg.list [])
      Resampling.nearest true exCalcDT exRB =
      Except.error EisException.invalidParameterValue :=
  ⟨rfl, unify_validation (PyObject.dataset exBase) (PyArg.list [])
    Resampling.nearest true exCalcDT exRB rfl⟩

/-! ### Claim C1 — the shared metadata dict -/

/-- C1, exhibited on a failing input.  With `sameExtent = false` and two
rasters to unify whose target grids are 5×5 and 7×3, the first non-base
result's descriptor reports width 7 and height 3 — the SECOND raster's
grid — while that same result's array is 5 columns by 5 rows, the first
raster's own target grid.  The single `out_meta` dict is created once
before the loop, mutated in place each iteration and appended by reference,
so appending the second result overwrites the descriptor of the already
appended first result, contradicting the claimed per-iteration
independence. -/
theorem unify_shared_meta_bug :
    (((unify_raster_grids_impl exBase [exR1, exR2] Resampling.nearest false
        exCalcDT exRB).get? 1).map
      (fun p => (p.2.width, p.2.height, p.1.cols, p.1.rows)) =
      some (7, 3, 5, 5)) ∧
    (computeTargetGrid exCalcDT exBase.crs (dstResolution exBase) exR1).2.1
      = 5 ∧
    (computeTargetGrid exCalcDT exBase.crs (dstResolution exBase) exR1).2.2
      = 5 ∧
    (computeTargetGrid exCalcDT exBase.crs (dstResolution exBase) exR2).2.1
      = 7 ∧
    (computeTargetGrid exCalcDT exBase.crs (dstResolution exBase) exR2).2.2
      = 3 := by
  refine ⟨by decide, rfl, rfl, rfl, rfl⟩

end EisUnify
